import Mathlib

/-!
A shallow embedding of the RSR (Rhodium Standard Repository) compliance
engine from `src/rsr.rs` of the rhodibot repository.

The engine is a pure function of the repository configuration, an
existence oracle (answers of `client.file_exists` keyed by path), and the
result of the one repository-metadata fetch (`client.get_repository`,
modelled as `Option (Option License)`: `none` when the fetch fails,
`some l` when it succeeds with optional license `l`).

Fields of `ComplianceReport` that are pure presentation (`owner`, `repo`,
which echo the inputs, the `f32` field `percentage`, and the `summary`
string derived from it) are outside the claims and, for `percentage`,
outside exact embedding; they are omitted.  Score accumulators, `u8` in
the source, are embedded as `Nat`; a second accumulator-only mirror with
explicit `% 256` arithmetic (`scoresU8`) captures the `u8` wrap-around
semantics.
-/

namespace Rhodibot

/-- Severity levels for compliance checks (src/rsr.rs `Severity`). -/
inductive Severity where
  | Required
  | Recommended
  | Optional
deriving DecidableEq, Repr

/-- Policy pack identifiers (src/rsr.rs `PolicyPack`). -/
inductive PolicyPack where
  | Minimal
  | Standard
  | Strict
  | Enterprise
  | Custom
deriving DecidableEq, Repr

/-- Check categories (src/rsr.rs `CheckCategory`). -/
inductive CheckCategory where
  | Documentation
  | Security
  | Governance
  | Structure
  | LanguagePolicy
deriving DecidableEq, Repr

/-- Check status (src/rsr.rs `CheckStatus`). -/
inductive CheckStatus where
  | Pass
  | Fail
  | Warn
  | Skip
deriving DecidableEq, Repr

/-- Repository-specific RSR configuration, from `.rsr.toml`
(src/rsr.rs `RepoConfig`).  The `HashMap<String, Severity>` of
severity overrides is embedded as an association list looked up with
`lookupOverride`. -/
structure RepoConfig where
  policy : PolicyPack
  severity_overrides : List (String × Severity)
  skip : List String
  require : List String
  ban : List String
deriving DecidableEq, Repr

/-- Association-list lookup embedding `HashMap::get` on the override map. -/
def lookupOverride : List (String × Severity) → String → Option Severity
  | [], _ => none
  | (k, v) :: rest, key => if k = key then some v else lookupOverride rest key

/-- Check definition with severity per policy pack (src/rsr.rs `CheckDef`).
The severity tuple is (minimal, standard, strict, enterprise). -/
structure CheckDef where
  name : String
  description : String
  category : CheckCategory
  points : Nat
  severity : Severity × Severity × Severity × Severity
deriving DecidableEq, Repr

/-- `CheckDef::severity_for` (src/rsr.rs lines 92-102): Custom defaults to
the standard column. -/
def CheckDef.severity_for (self : CheckDef) (policy : PolicyPack) : Severity :=
  match policy with
  | .Minimal => self.severity.1
  | .Standard => self.severity.2.1
  | .Strict => self.severity.2.2.1
  | .Enterprise => self.severity.2.2.2
  | .Custom => self.severity.2.1

/-- Required files for RSR compliance (src/rsr.rs `REQUIRED_FILES`). -/
def REQUIRED_FILES : List CheckDef := [
  { name := "README.adoc", description := "AsciiDoc README",
    category := .Documentation, points := 5,
    severity := (.Required, .Required, .Required, .Required) },
  { name := "LICENSE.txt", description := "License file",
    category := .Governance, points := 5,
    severity := (.Required, .Required, .Required, .Required) },
  { name := "SECURITY.md", description := "Security policy",
    category := .Security, points := 5,
    severity := (.Optional, .Recommended, .Required, .Required) },
  { name := "CONTRIBUTING.md", description := "Contributing guidelines",
    category := .Documentation, points := 3,
    severity := (.Optional, .Recommended, .Required, .Required) },
  { name := "CODE_OF_CONDUCT.md", description := "Code of conduct",
    category := .Governance, points := 3,
    severity := (.Optional, .Optional, .Recommended, .Required) },
  { name := ".claude/CLAUDE.md", description := "AI assistant instructions",
    category := .Structure, points := 2,
    severity := (.Optional, .Optional, .Recommended, .Required) },
  { name := "STATE.scm", description := "Project state file",
    category := .Structure, points := 3,
    severity := (.Optional, .Recommended, .Required, .Required) },
  { name := "META.scm", description := "Meta information",
    category := .Structure, points := 3,
    severity := (.Optional, .Recommended, .Required, .Required) },
  { name := "ECOSYSTEM.scm", description := "Ecosystem position",
    category := .Structure, points := 3,
    severity := (.Optional, .Optional, .Recommended, .Required) }
]

/-- Banned patterns definition (src/rsr.rs `BannedPattern`). -/
structure BannedPattern where
  name : String
  description : String
  category : CheckCategory
  severity : Severity × Severity × Severity × Severity
deriving DecidableEq, Repr

/-- `BannedPattern::severity_for` (src/rsr.rs lines 182-192). -/
def BannedPattern.severity_for (self : BannedPattern) (policy : PolicyPack) : Severity :=
  match policy with
  | .Minimal => self.severity.1
  | .Standard => self.severity.2.1
  | .Strict => self.severity.2.2.1
  | .Enterprise => self.severity.2.2.2
  | .Custom => self.severity.2.1

/-- Banned file patterns (src/rsr.rs `BANNED_PATTERNS`). -/
def BANNED_PATTERNS : List BannedPattern := [
  { name := "package-lock.json", description := "npm lock file (use Deno)",
    category := .LanguagePolicy,
    severity := (.Optional, .Recommended, .Required, .Required) },
  { name := "yarn.lock", description := "Yarn lock file (use Deno)",
    category := .LanguagePolicy,
    severity := (.Optional, .Recommended, .Required, .Required) },
  { name := "pnpm-lock.yaml", description := "pnpm lock file (use Deno)",
    category := .LanguagePolicy,
    severity := (.Optional, .Recommended, .Required, .Required) },
  { name := "bun.lockb", description := "Bun lock file (use Deno)",
    category := .LanguagePolicy,
    severity := (.Optional, .Recommended, .Required, .Required) },
  { name := "go.mod", description := "Go module (use Rust)",
    category := .LanguagePolicy,
    severity := (.Optional, .Recommended, .Required, .Required) },
  { name := "go.sum", description := "Go checksum (use Rust)",
    category := .LanguagePolicy,
    severity := (.Optional, .Recommended, .Required, .Required) }
]

/-- Individual compliance check (src/rsr.rs `Check`). -/
structure Check where
  name : String
  category : CheckCategory
  severity : Severity
  status : CheckStatus
  points : Nat
  max_points : Nat
  message : String
deriving DecidableEq, Repr

/-- License metadata returned by the repository-metadata fetch
(src/github.rs `License`). -/
structure License where
  key : String
  name : String
deriving DecidableEq, Repr

/-- Mutable state of the evaluation loop in
`check_compliance_with_policy`: the `checks` vector and the three
accumulators `total_score`, `max_score`, `required_passed`
(src/rsr.rs lines 321-324). -/
structure EvalState where
  checks : List Check
  total_score : Nat
  max_score : Nat
  required_passed : Bool
deriving DecidableEq, Repr

/-- Initial accumulator state (src/rsr.rs lines 321-324). -/
def initState : EvalState :=
  { checks := [], total_score := 0, max_score := 0, required_passed := true }

/-- The severity resolution for a required-file check: the override map
wins, otherwise the policy-pack column (src/rsr.rs lines 342-347). -/
def resolvedFileSeverity (cfg : RepoConfig) (cd : CheckDef) : Severity :=
  (lookupOverride cfg.severity_overrides cd.name).getD
    (cd.severity_for cfg.policy)

/-- The severity resolution for a banned-pattern check, keyed by
`"no-" ++ name` (src/rsr.rs lines 410-414). -/
def resolvedBannedSeverity (cfg : RepoConfig) (bp : BannedPattern) : Severity :=
  (lookupOverride cfg.severity_overrides ("no-" ++ bp.name)).getD
    (bp.severity_for cfg.policy)

/-- One iteration of the required-files loop
(src/rsr.rs lines 327-402). -/
def requiredFileStep (cfg : RepoConfig) (oracle : String → Bool)
    (st : EvalState) (cd : CheckDef) : EvalState :=
  if cfg.skip.contains cd.name then
    { st with checks := st.checks ++ [
      { name := cd.name, category := cd.category, severity := .Optional,
        status := .Skip, points := 0, max_points := 0,
        message := cd.description ++ " skipped by config" }] }
  else
    let severity := resolvedFileSeverity cfg cd
    if severity = .Optional then
      let ex := oracle cd.name
      { st with checks := st.checks ++ [
        { name := cd.name, category := cd.category, severity := severity,
          status := if ex then .Pass else .Skip, points := 0, max_points := 0,
          message := if ex then cd.description ++ " found (optional)"
            else cd.description ++ " not present (optional)" }] }
    else
      let max_score := st.max_score + cd.points
      let ex := oracle cd.name
      if ex then
        { checks := st.checks ++ [
            { name := cd.name, category := cd.category, severity := severity,
              status := .Pass, points := cd.points, max_points := cd.points,
              message := cd.description ++ " found" }],
          total_score := st.total_score + cd.points,
          max_score := max_score,
          required_passed := st.required_passed }
      else
        let flagStatus : Bool × CheckStatus :=
          match severity with
          | .Required => (false, .Fail)
          | .Recommended => (st.required_passed, .Warn)
          | .Optional => (st.required_passed, .Skip)
        { checks := st.checks ++ [
            { name := cd.name, category := cd.category, severity := severity,
              status := flagStatus.2, points := 0, max_points := cd.points,
              message := cd.description ++ " missing" }],
          total_score := st.total_score,
          max_score := max_score,
          required_passed := flagStatus.1 }

/-- One iteration of the banned-patterns loop
(src/rsr.rs lines 405-438). -/
def bannedStep (cfg : RepoConfig) (oracle : String → Bool)
    (st : EvalState) (bp : BannedPattern) : EvalState :=
  if cfg.skip.contains ("no-" ++ bp.name) then
    st
  else
    let severity := resolvedBannedSeverity cfg bp
    let ex := oracle bp.name
    if ex then
      let flagStatus : Bool × CheckStatus :=
        match severity with
        | .Required => (false, .Fail)
        | .Recommended => (st.required_passed, .Warn)
        | .Optional => (st.required_passed, .Warn)
      { st with
        checks := st.checks ++ [
          { name := "no-" ++ bp.name, category := bp.category,
            severity := severity, status := flagStatus.2,
            points := 0, max_points := 0,
            message := bp.description ++ " detected - policy violation" }],
        required_passed := flagStatus.1 }
    else
      st

/-- The workflow-presence severity: policy-driven, with the override map
consulted only under Custom (src/rsr.rs lines 441-450). -/
def workflowSeverityOf (cfg : RepoConfig) : Severity :=
  match cfg.policy with
  | .Minimal => Severity.Optional
  | .Standard => Severity.Recommended
  | .Strict => Severity.Required
  | .Enterprise => Severity.Required
  | .Custom => (lookupOverride cfg.severity_overrides ".github/workflows").getD
      .Recommended

/-- The workflow-presence check (src/rsr.rs lines 441-490). -/
def workflowStage (cfg : RepoConfig) (oracle : String → Bool)
    (st : EvalState) : EvalState :=
  let workflow_severity := workflowSeverityOf cfg
  let st := if workflow_severity ≠ Severity.Optional then
      { st with max_score := st.max_score + 5 }
    else st
  let has_workflows := oracle ".github/workflows"
  if has_workflows then
    let st := if workflow_severity ≠ Severity.Optional then
        { st with total_score := st.total_score + 5 }
      else st
    { st with checks := st.checks ++ [
        { name := ".github/workflows", category := .Structure,
          severity := workflow_severity, status := .Pass,
          points := if workflow_severity ≠ Severity.Optional then 5 else 0,
          max_points := if workflow_severity ≠ Severity.Optional then 5 else 0,
          message := "GitHub Actions workflows found" }] }
  else
    let flagStatus : Bool × CheckStatus :=
      match workflow_severity with
      | .Required => (false, .Fail)
      | .Recommended => (st.required_passed, .Warn)
      | .Optional => (st.required_passed, .Skip)
    { st with
      checks := st.checks ++ [
        { name := ".github/workflows", category := .Structure,
          severity := workflow_severity, status := flagStatus.2,
          points := 0,
          max_points := if workflow_severity ≠ Severity.Optional then 5 else 0,
          message := "No GitHub Actions workflows" }],
      required_passed := flagStatus.1 }

/-- The fixed approved-license set (src/rsr.rs line 501). -/
def approved_licenses : List String :=
  ["agpl-3.0", "apache-2.0", "mit", "mpl-2.0", "lgpl-3.0"]

/-- The license-check severity: Recommended under Minimal, Required for
every other pack (src/rsr.rs lines 494-497). -/
def licenseSeverityOf (policy : PolicyPack) : Severity :=
  match policy with
  | .Minimal => Severity.Recommended
  | _ => Severity.Required

/-- The license-type check (src/rsr.rs lines 493-542).  `meta` is
`none` when `client.get_repository` failed, in which case the whole
block is skipped. -/
def licenseStage (policy : PolicyPack) (meta : Option (Option License))
    (st : EvalState) : EvalState :=
  match meta with
  | none => st
  | some licenseOpt =>
    let license_severity := licenseSeverityOf policy
    let st := { st with max_score := st.max_score + 5 }
    match licenseOpt with
    | some license =>
      if approved_licenses.contains license.key then
        { st with
          total_score := st.total_score + 5,
          checks := st.checks ++ [
            { name := "license-type", category := .Governance,
              severity := license_severity, status := .Pass,
              points := 5, max_points := 5,
              message := "Approved license: " ++ license.name }] }
      else
        { st with
          required_passed := if license_severity = Severity.Required then false
            else st.required_passed,
          checks := st.checks ++ [
            { name := "license-type", category := .Governance,
              severity := license_severity, status := .Warn,
              points := 2, max_points := 5,
              message := "Non-standard license: " ++ license.name }],
          total_score := st.total_score + 2 }
    | none =>
      { st with
        required_passed := if license_severity = Severity.Required then false
          else st.required_passed,
        checks := st.checks ++ [
          { name := "license-type", category := .Governance,
            severity := license_severity, status := .Fail,
            points := 0, max_points := 5,
            message := "No license detected" }] }

/-- RSR compliance report (src/rsr.rs `ComplianceReport`), restricted to
the fields with engine logic behind them (`owner`/`repo` echo inputs and
`percentage`/`summary` are floating-point presentation). -/
structure ComplianceReport where
  policy : PolicyPack
  score : Nat
  max_score : Nat
  required_passed : Bool
  checks : List Check
deriving DecidableEq, Repr

/-- Evaluation state after the required-files loop, the banned-patterns
loop and the workflow check, before the license block
(src/rsr.rs lines 321-490). -/
def preLicenseState (cfg : RepoConfig) (oracle : String → Bool) : EvalState :=
  workflowStage cfg oracle
    (BANNED_PATTERNS.foldl (bannedStep cfg oracle)
      (REQUIRED_FILES.foldl (requiredFileStep cfg oracle) initState))

/-- The compliance engine `check_compliance_with_policy`
(src/rsr.rs lines 312-573) as a pure function of the configuration,
the existence oracle, and the metadata-fetch result. -/
def check_compliance_with_policy (cfg : RepoConfig) (oracle : String → Bool)
    (meta : Option (Option License)) : ComplianceReport :=
  let st := licenseStage cfg.policy meta (preLicenseState cfg oracle)
  { policy := cfg.policy,
    score := st.total_score,
    max_score := st.max_score,
    required_passed := st.required_passed,
    checks := st.checks }

/-! ### Per-check decomposition of the evaluator

Each loop iteration and each synthesized check touches the state in a
uniform way: it appends checks, adds to the two accumulators, and may
clear `required_passed`.  The functions below isolate those four
contributions per check so the folds can be characterized once. -/

/-- The single check appended by one required-files iteration. -/
def fileCheckOf (cfg : RepoConfig) (oracle : String → Bool) (cd : CheckDef) : Check :=
  if cfg.skip.contains cd.name then
    { name := cd.name, category := cd.category, severity := .Optional,
      status := .Skip, points := 0, max_points := 0,
      message := cd.description ++ " skipped by config" }
  else
    let severity := resolvedFileSeverity cfg cd
    if severity = .Optional then
      { name := cd.name, category := cd.category, severity := severity,
        status := if oracle cd.name then .Pass else .Skip,
        points := 0, max_points := 0,
        message := if oracle cd.name then cd.description ++ " found (optional)"
          else cd.description ++ " not present (optional)" }
    else if oracle cd.name then
      { name := cd.name, category := cd.category, severity := severity,
        status := .Pass, points := cd.points, max_points := cd.points,
        message := cd.description ++ " found" }
    else
      { name := cd.name, category := cd.category, severity := severity,
        status := match severity with
          | .Required => .Fail
          | .Recommended => .Warn
          | .Optional => .Skip,
        points := 0, max_points := cd.points,
        message := cd.description ++ " missing" }

/-- Score earned by one required-files iteration. -/
def fileScoreInc (cfg : RepoConfig) (oracle : String → Bool) (cd : CheckDef) : Nat :=
  if cfg.skip.contains cd.name then 0
  else if resolvedFileSeverity cfg cd = .Optional then 0
  else if oracle cd.name then cd.points else 0

/-- Maximum score added by one required-files iteration. -/
def fileMaxInc (cfg : RepoConfig) (cd : CheckDef) : Nat :=
  if cfg.skip.contains cd.name then 0
  else if resolvedFileSeverity cfg cd = .Optional then 0
  else cd.points

/-- Whether one required-files iteration clears `required_passed`. -/
def fileKill (cfg : RepoConfig) (oracle : String → Bool) (cd : CheckDef) : Bool :=
  if cfg.skip.contains cd.name then false
  else if resolvedFileSeverity cfg cd = .Optional then false
  else if oracle cd.name then false
  else match resolvedFileSeverity cfg cd with
    | .Required => true
    | _ => false

/-- The check (if any) appended by one banned-patterns iteration. -/
def bannedCheckOf (cfg : RepoConfig) (oracle : String → Bool)
    (bp : BannedPattern) : Option Check :=
  if cfg.skip.contains ("no-" ++ bp.name) then none
  else if oracle bp.name then
    let severity := resolvedBannedSeverity cfg bp
    some { name := "no-" ++ bp.name, category := bp.category,
           severity := severity,
           status := match severity with
             | .Required => .Fail
             | .Recommended => .Warn
             | .Optional => .Warn,
           points := 0, max_points := 0,
           message := bp.description ++ " detected - policy violation" }
  else none

/-- Whether one banned-patterns iteration clears `required_passed`. -/
def bannedKill (cfg : RepoConfig) (oracle : String → Bool)
    (bp : BannedPattern) : Bool :=
  if cfg.skip.contains ("no-" ++ bp.name) then false
  else if oracle bp.name then
    match resolvedBannedSeverity cfg bp with
    | .Required => true
    | _ => false
  else false

/-- The check appended by the workflow stage. -/
def wfCheckOf (cfg : RepoConfig) (oracle : String → Bool) : Check :=
  let ws := workflowSeverityOf cfg
  if oracle ".github/workflows" then
    { name := ".github/workflows", category := .Structure, severity := ws,
      status := .Pass,
      points := if ws ≠ Severity.Optional then 5 else 0,
      max_points := if ws ≠ Severity.Optional then 5 else 0,
      message := "GitHub Actions workflows found" }
  else
    { name := ".github/workflows", category := .Structure, severity := ws,
      status := match ws with
        | .Required => .Fail
        | .Recommended => .Warn
        | .Optional => .Skip,
      points := 0,
      max_points := if ws ≠ Severity.Optional then 5 else 0,
      message := "No GitHub Actions workflows" }

/-- Score earned by the workflow stage. -/
def wfScoreInc (cfg : RepoConfig) (oracle : String → Bool) : Nat :=
  if oracle ".github/workflows" then
    if workflowSeverityOf cfg ≠ Severity.Optional then 5 else 0
  else 0

/-- Maximum score added by the workflow stage. -/
def wfMaxInc (cfg : RepoConfig) : Nat :=
  if workflowSeverityOf cfg ≠ Severity.Optional then 5 else 0

/-- Whether the workflow stage clears `required_passed`. -/
def wfKill (cfg : RepoConfig) (oracle : String → Bool) : Bool :=
  if oracle ".github/workflows" then false
  else match workflowSeverityOf cfg with
    | .Required => true
    | _ => false

/-- The checks (none on fetch failure, one otherwise) appended by the
license stage. -/
def licCheckList (policy : PolicyPack) (meta : Option (Option License)) : List Check :=
  match meta with
  | none => []
  | some licenseOpt =>
    let ls := licenseSeverityOf policy
    match licenseOpt with
    | some license =>
      if approved_licenses.contains license.key then
        [{ name := "license-type", category := .Governance, severity := ls,
           status := .Pass, points := 5, max_points := 5,
           message := "Approved license: " ++ license.name }]
      else
        [{ name := "license-type", category := .Governance, severity := ls,
           status := .Warn, points := 2, max_points := 5,
           message := "Non-standard license: " ++ license.name }]
    | none =>
      [{ name := "license-type", category := .Governance, severity := ls,
         status := .Fail, points := 0, max_points := 5,
         message := "No license detected" }]

/-- Score earned by the license stage. -/
def licScoreInc (meta : Option (Option License)) : Nat :=
  match meta with
  | none => 0
  | some (some license) => if approved_licenses.contains license.key then 5 else 2
  | some none => 0

/-- Maximum score added by the license stage. -/
def licMaxInc (meta : Option (Option License)) : Nat :=
  match meta with
  | none => 0
  | some _ => 5

/-- Whether the license stage clears `required_passed`. -/
def licKill (policy : PolicyPack) (meta : Option (Option License)) : Bool :=
  match meta with
  | none => false
  | some (some license) =>
    if approved_licenses.contains license.key then false
    else match licenseSeverityOf policy with
      | .Required => true
      | _ => false
  | some none =>
    match licenseSeverityOf policy with
    | .Required => true
    | _ => false

theorem requiredFileStep_spec (cfg : RepoConfig) (oracle : String → Bool)
    (st : EvalState) (cd : CheckDef) :
    requiredFileStep cfg oracle st cd =
      { checks := st.checks ++ [fileCheckOf cfg oracle cd],
        total_score := st.total_score + fileScoreInc cfg oracle cd,
        max_score := st.max_score + fileMaxInc cfg cd,
        required_passed := st.required_passed && !(fileKill cfg oracle cd) } := by
  by_cases h1 : cd.name ∈ cfg.skip
  · simp [requiredFileStep, fileCheckOf, fileScoreInc, fileMaxInc, fileKill, h1]
  · by_cases h2 : resolvedFileSeverity cfg cd = .Optional
    · simp [requiredFileStep, fileCheckOf, fileScoreInc, fileMaxInc, fileKill, h1, h2]
    · by_cases h3 : oracle cd.name
      · simp [requiredFileStep, fileCheckOf, fileScoreInc, fileMaxInc, fileKill,
          h1, h2, h3]
      · cases h4 : resolvedFileSeverity cfg cd <;>
          simp_all [requiredFileStep, fileCheckOf, fileScoreInc, fileMaxInc,
            fileKill, h1, h3]

theorem bannedStep_spec (cfg : RepoConfig) (oracle : String → Bool)
    (st : EvalState) (bp : BannedPattern) :
    bannedStep cfg oracle st bp =
      { checks := st.checks ++ (bannedCheckOf cfg oracle bp).toList,
        total_score := st.total_score,
        max_score := st.max_score,
        required_passed := st.required_passed && !(bannedKill cfg oracle bp) } := by
  by_cases h1 : ("no-" ++ bp.name) ∈ cfg.skip
  · simp [bannedStep, bannedCheckOf, bannedKill, h1]
  · by_cases h2 : oracle bp.name
    · cases h3 : resolvedBannedSeverity cfg bp <;>
        simp_all [bannedStep, bannedCheckOf, bannedKill, h1, h2]
    · simp [bannedStep, bannedCheckOf, bannedKill, h1, h2]

theorem workflowStage_spec (cfg : RepoConfig) (oracle : String → Bool)
    (st : EvalState) :
    workflowStage cfg oracle st =
      { checks := st.checks ++ [wfCheckOf cfg oracle],
        total_score := st.total_score + wfScoreInc cfg oracle,
        max_score := st.max_score + wfMaxInc cfg,
        required_passed := st.required_passed && !(wfKill cfg oracle) } := by
  by_cases h1 : oracle ".github/workflows" <;>
    cases h2 : workflowSeverityOf cfg <;>
      simp_all [workflowStage, wfCheckOf, wfScoreInc, wfMaxInc, wfKill, h1]

theorem licenseStage_spec (policy : PolicyPack) (meta : Option (Option License))
    (st : EvalState) :
    licenseStage policy meta st =
      { checks := st.checks ++ licCheckList policy meta,
        total_score := st.total_score + licScoreInc meta,
        max_score := st.max_score + licMaxInc meta,
        required_passed := st.required_passed && !(licKill policy meta) } := by
  match meta with
  | none => simp [licenseStage, licCheckList, licScoreInc, licMaxInc, licKill]
  | some (some license) =>
    by_cases h1 : license.key ∈ approved_licenses <;>
      cases h2 : licenseSeverityOf policy <;>
        simp_all [licenseStage, licCheckList, licScoreInc, licMaxInc, licKill, h1]
  | some none =>
    cases h2 : licenseSeverityOf policy <;>
      simp_all [licenseStage, licCheckList, licScoreInc, licMaxInc, licKill]

theorem foldl_requiredFileStep_spec (cfg : RepoConfig) (oracle : String → Bool)
    (defs : List CheckDef) (st : EvalState) :
    defs.foldl (requiredFileStep cfg oracle) st =
      { checks := st.checks ++ defs.map (fileCheckOf cfg oracle),
        total_score := st.total_score + (defs.map (fileScoreInc cfg oracle)).sum,
        max_score := st.max_score + (defs.map (fileMaxInc cfg)).sum,
        required_passed := st.required_passed && !(defs.any (fileKill cfg oracle)) } := by
  induction defs generalizing st with
  | nil => simp
  | cons cd rest ih =>
    rw [List.foldl_cons, ih, requiredFileStep_spec]
    simp [List.append_assoc, Nat.add_assoc, Bool.and_assoc]

theorem foldl_bannedStep_spec (cfg : RepoConfig) (oracle : String → Bool)
    (defs : List BannedPattern) (st : EvalState) :
    defs.foldl (bannedStep cfg oracle) st =
      { checks := st.checks ++ defs.filterMap (bannedCheckOf cfg oracle),
        total_score := st.total_score,
        max_score := st.max_score,
        required_passed := st.required_passed && !(defs.any (bannedKill cfg oracle)) } := by
  induction defs generalizing st with
  | nil => simp
  | cons bp rest ih =>
    rw [List.foldl_cons, ih, bannedStep_spec]
    cases h : bannedCheckOf cfg oracle bp <;>
      simp [List.filterMap_cons, h, List.append_assoc, Bool.and_assoc]

/-- The full decomposition of the engine's output into per-check
contributions. -/
theorem check_compliance_with_policy_spec (cfg : RepoConfig)
    (oracle : String → Bool) (meta : Option (Option License)) :
    check_compliance_with_policy cfg oracle meta =
      { policy := cfg.policy,
        score := (REQUIRED_FILES.map (fileScoreInc cfg oracle)).sum
          + wfScoreInc cfg oracle + licScoreInc meta,
        max_score := (REQUIRED_FILES.map (fileMaxInc cfg)).sum
          + wfMaxInc cfg + licMaxInc meta,
        required_passed := !(REQUIRED_FILES.any (fileKill cfg oracle)
          || BANNED_PATTERNS.any (bannedKill cfg oracle)
          || wfKill cfg oracle || licKill cfg.policy meta),
        checks := REQUIRED_FILES.map (fileCheckOf cfg oracle)
          ++ BANNED_PATTERNS.filterMap (bannedCheckOf cfg oracle)
          ++ [wfCheckOf cfg oracle] ++ licCheckList cfg.policy meta } := by
  rw [check_compliance_with_policy, preLicenseState, foldl_requiredFileStep_spec,
    foldl_bannedStep_spec, workflowStage_spec, licenseStage_spec]
  simp [initState, List.append_assoc, Nat.add_assoc, Bool.and_assoc, Bool.not_or]

/-! ### Pointwise characterizations of the emitted checks -/

theorem fileCheckOf_name (cfg : RepoConfig) (oracle : String → Bool)
    (cd : CheckDef) : (fileCheckOf cfg oracle cd).name = cd.name := by
  by_cases h1 : cd.name ∈ cfg.skip
  · simp [fileCheckOf, h1]
  · by_cases h2 : resolvedFileSeverity cfg cd = .Optional
    · simp [fileCheckOf, h1, h2]
    · by_cases h3 : oracle cd.name <;> simp [fileCheckOf, h1, h2, h3]

theorem bannedCheckOf_name (cfg : RepoConfig) (oracle : String → Bool)
    (bp : BannedPattern) (c : Check) (h : bannedCheckOf cfg oracle bp = some c) :
    c.name = "no-" ++ bp.name := by
  by_cases h1 : ("no-" ++ bp.name) ∈ cfg.skip
  · simp [bannedCheckOf, h1] at h
  · by_cases h2 : oracle bp.name
    · simp [bannedCheckOf, h1, h2] at h
      simp [← h]
    · simp [bannedCheckOf, h1, h2] at h

theorem wfCheckOf_name (cfg : RepoConfig) (oracle : String → Bool) :
    (wfCheckOf cfg oracle).name = ".github/workflows" := by
  by_cases h1 : oracle ".github/workflows" <;> simp [wfCheckOf, h1]

theorem licCheckList_name (policy : PolicyPack) (meta : Option (Option License))
    (c : Check) (h : c ∈ licCheckList policy meta) : c.name = "license-type" := by
  match meta with
  | none => simp [licCheckList] at h
  | some (some license) =>
    by_cases h1 : license.key ∈ approved_licenses <;>
      simp [licCheckList, h1] at h <;> simp [h]
  | some none =>
    simp [licCheckList] at h
    simp [h]

theorem fileCheckOf_severity (cfg : RepoConfig) (oracle : String → Bool)
    (cd : CheckDef) (h1 : cd.name ∉ cfg.skip) :
    (fileCheckOf cfg oracle cd).severity = resolvedFileSeverity cfg cd := by
  by_cases h2 : resolvedFileSeverity cfg cd = .Optional
  · simp [fileCheckOf, h1, h2]
  · by_cases h3 : oracle cd.name <;> simp [fileCheckOf, h1, h2, h3]

theorem bannedCheckOf_severity (cfg : RepoConfig) (oracle : String → Bool)
    (bp : BannedPattern) (c : Check) (h : bannedCheckOf cfg oracle bp = some c) :
    c.severity = resolvedBannedSeverity cfg bp := by
  by_cases h1 : ("no-" ++ bp.name) ∈ cfg.skip
  · simp [bannedCheckOf, h1] at h
  · by_cases h2 : oracle bp.name
    · simp [bannedCheckOf, h1, h2] at h
      simp [← h]
    · simp [bannedCheckOf, h1, h2] at h

theorem wfCheckOf_severity (cfg : RepoConfig) (oracle : String → Bool) :
    (wfCheckOf cfg oracle).severity = workflowSeverityOf cfg := by
  by_cases h1 : oracle ".github/workflows" <;> simp [wfCheckOf, h1]

theorem licCheckList_severity (policy : PolicyPack) (meta : Option (Option License))
    (c : Check) (h : c ∈ licCheckList policy meta) :
    c.severity = licenseSeverityOf policy := by
  match meta with
  | none => simp [licCheckList] at h
  | some (some license) =>
    by_cases h1 : license.key ∈ approved_licenses <;>
      simp [licCheckList, h1] at h <;> simp [h]
  | some none =>
    simp [licCheckList] at h
    simp [h]

/-- The property of a check that the evaluator treats as fatal: a
Required failure, or the Required-severity warning that an unapproved
license produces. -/
def FatalCheck (c : Check) : Prop :=
  c.severity = .Required ∧
    (c.status = .Fail ∨ (c.name = "license-type" ∧ c.status = .Warn))

instance (c : Check) : Decidable (FatalCheck c) := by
  unfold FatalCheck
  infer_instance

theorem fileCheckOf_fatal_iff (cfg : RepoConfig) (oracle : String → Bool)
    (cd : CheckDef) :
    FatalCheck (fileCheckOf cfg oracle cd) ↔ fileKill cfg oracle cd = true := by
  unfold FatalCheck
  by_cases h1 : cd.name ∈ cfg.skip
  · simp [fileCheckOf, fileKill, h1]
  · by_cases h2 : resolvedFileSeverity cfg cd = .Optional
    · simp [fileCheckOf, fileKill, h1, h2]
    · by_cases h3 : oracle cd.name
      · simp [fileCheckOf, fileKill, h1, h2, h3]
      · cases h4 : resolvedFileSeverity cfg cd <;>
          simp_all [fileCheckOf, fileKill, h1, h3]

theorem bannedCheckOf_fatal_iff (cfg : RepoConfig) (oracle : String → Bool)
    (bp : BannedPattern) :
    (∃ c, bannedCheckOf cfg oracle bp = some c ∧ FatalCheck c) ↔
      bannedKill cfg oracle bp = true := by
  unfold FatalCheck
  by_cases h1 : ("no-" ++ bp.name) ∈ cfg.skip
  · simp [bannedCheckOf, bannedKill, h1]
  · by_cases h2 : oracle bp.name
    · cases h3 : resolvedBannedSeverity cfg bp <;>
        simp_all [bannedCheckOf, bannedKill, h1, h2]
    · simp [bannedCheckOf, bannedKill, h1, h2]

theorem wfCheckOf_fatal_iff (cfg : RepoConfig) (oracle : String → Bool) :
    FatalCheck (wfCheckOf cfg oracle) ↔ wfKill cfg oracle = true := by
  unfold FatalCheck
  by_cases h1 : oracle ".github/workflows" <;>
    cases h2 : workflowSeverityOf cfg <;>
      simp_all [wfCheckOf, wfKill, h1]

theorem licCheckList_fatal_iff (policy : PolicyPack) (meta : Option (Option License)) :
    (∃ c ∈ licCheckList policy meta, FatalCheck c) ↔
      licKill policy meta = true := by
  unfold FatalCheck
  match meta with
  | none => simp [licCheckList, licKill]
  | some (some license) =>
    by_cases h1 : license.key ∈ approved_licenses <;>
      cases h2 : licenseSeverityOf policy <;>
        simp_all [licCheckList, licKill, h1]
  | some none =>
    cases h2 : licenseSeverityOf policy <;>
      simp_all [licCheckList, licKill]

theorem licenseSeverityOf_ne_optional (policy : PolicyPack) :
    licenseSeverityOf policy ≠ .Optional := by
  cases policy <;> simp [licenseSeverityOf]

theorem noPrefixData (s : String) : ("no-" ++ s).data.take 3 = ['n', 'o', '-'] := by
  have h : ("no-" ++ s).data = "no-".data ++ s.data := by
    simp [String.data_append]
  rw [h]
  rfl

theorem fileScoreInc_eq_points (cfg : RepoConfig) (oracle : String → Bool)
    (cd : CheckDef) : fileScoreInc cfg oracle cd = (fileCheckOf cfg oracle cd).points := by
  by_cases h1 : cd.name ∈ cfg.skip
  · simp [fileCheckOf, fileScoreInc, h1]
  · by_cases h2 : resolvedFileSeverity cfg cd = .Optional
    · simp [fileCheckOf, fileScoreInc, h1, h2]
    · by_cases h3 : oracle cd.name <;> simp [fileCheckOf, fileScoreInc, h1, h2, h3]

theorem fileMaxInc_eq_max (cfg : RepoConfig) (oracle : String → Bool)
    (cd : CheckDef) : fileMaxInc cfg cd = (fileCheckOf cfg oracle cd).max_points := by
  by_cases h1 : cd.name ∈ cfg.skip
  · simp [fileCheckOf, fileMaxInc, h1]
  · by_cases h2 : resolvedFileSeverity cfg cd = .Optional
    · simp [fileCheckOf, fileMaxInc, h1, h2]
    · by_cases h3 : oracle cd.name <;> simp [fileCheckOf, fileMaxInc, h1, h2, h3]

theorem bannedCheckOf_zero (cfg : RepoConfig) (oracle : String → Bool)
    (bp : BannedPattern) (c : Check) (h : bannedCheckOf cfg oracle bp = some c) :
    c.points = 0 ∧ c.max_points = 0 := by
  by_cases h1 : ("no-" ++ bp.name) ∈ cfg.skip
  · simp [bannedCheckOf, h1] at h
  · by_cases h2 : oracle bp.name
    · simp [bannedCheckOf, h1, h2] at h
      simp [← h]
    · simp [bannedCheckOf, h1, h2] at h

theorem wfScoreInc_eq_points (cfg : RepoConfig) (oracle : String → Bool) :
    wfScoreInc cfg oracle = (wfCheckOf cfg oracle).points := by
  by_cases h1 : oracle ".github/workflows" <;>
    by_cases h2 : workflowSeverityOf cfg = .Optional <;>
      simp [wfCheckOf, wfScoreInc, h1, h2]

theorem wfMaxInc_eq_max (cfg : RepoConfig) (oracle : String → Bool) :
    wfMaxInc cfg = (wfCheckOf cfg oracle).max_points := by
  by_cases h1 : oracle ".github/workflows" <;>
    by_cases h2 : workflowSeverityOf cfg = .Optional <;>
      simp [wfCheckOf, wfMaxInc, h1, h2]

theorem licScoreInc_eq_points (policy : PolicyPack) (meta : Option (Option License)) :
    licScoreInc meta = ((licCheckList policy meta).map (fun c => c.points)).sum := by
  match meta with
  | none => simp [licCheckList, licScoreInc]
  | some (some license) =>
    by_cases h1 : license.key ∈ approved_licenses <;>
      simp [licCheckList, licScoreInc, h1]
  | some none => simp [licCheckList, licScoreInc]

theorem licMaxInc_eq_max (policy : PolicyPack) (meta : Option (Option License)) :
    licMaxInc meta = ((licCheckList policy meta).map (fun c => c.max_points)).sum := by
  match meta with
  | none => simp [licCheckList, licMaxInc]
  | some (some license) =>
    by_cases h1 : license.key ∈ approved_licenses <;>
      simp [licCheckList, licMaxInc, h1]
  | some none => simp [licCheckList, licMaxInc]

theorem filterMap_banned_points_sum (cfg : RepoConfig) (oracle : String → Bool)
    (defs : List BannedPattern) :
    (((defs.filterMap (bannedCheckOf cfg oracle)).map (fun c => c.points)).sum = 0)
    ∧ ((defs.filterMap (bannedCheckOf cfg oracle)).map (fun c => c.max_points)).sum = 0 := by
  induction defs with
  | nil => simp
  | cons bp rest ih =>
    cases h : bannedCheckOf cfg oracle bp with
    | none => simpa [List.filterMap_cons, h] using ih
    | some c =>
      have hz := bannedCheckOf_zero cfg oracle bp c h
      simp [List.filterMap_cons, h, hz.1, hz.2, ih.1, ih.2]

/-- The aggregate score is the sum of the `points` fields over the
emitted checks. -/
theorem score_eq_sum_points (cfg : RepoConfig) (oracle : String → Bool)
    (meta : Option (Option License)) :
    (check_compliance_with_policy cfg oracle meta).score =
      (((check_compliance_with_policy cfg oracle meta).checks).map
        (fun c => c.points)).sum := by
  rw [check_compliance_with_policy_spec]
  simp only [List.map_append, List.sum_append, List.map_map]
  have hfile : List.map ((fun c => c.points) ∘ fileCheckOf cfg oracle) REQUIRED_FILES
      = List.map (fileScoreInc cfg oracle) REQUIRED_FILES :=
    List.map_congr_left (fun cd _ => (fileScoreInc_eq_points cfg oracle cd).symm)
  rw [hfile, (filterMap_banned_points_sum cfg oracle BANNED_PATTERNS).1,
    ← licScoreInc_eq_points cfg.policy meta]
  simp [wfScoreInc_eq_points, Nat.add_assoc]

/-- The maximum score is the sum of the `max_points` fields over the
emitted checks. -/
theorem max_score_eq_sum_max_points (cfg : RepoConfig) (oracle : String → Bool)
    (meta : Option (Option License)) :
    (check_compliance_with_policy cfg oracle meta).max_score =
      (((check_compliance_with_policy cfg oracle meta).checks).map
        (fun c => c.max_points)).sum := by
  rw [check_compliance_with_policy_spec]
  simp only [List.map_append, List.sum_append, List.map_map]
  have hfile : List.map ((fun c => c.max_points) ∘ fileCheckOf cfg oracle) REQUIRED_FILES
      = List.map (fileMaxInc cfg) REQUIRED_FILES :=
    List.map_congr_left (fun cd _ => (fileMaxInc_eq_max cfg oracle cd).symm)
  rw [hfile, (filterMap_banned_points_sum cfg oracle BANNED_PATTERNS).2,
    ← licMaxInc_eq_max cfg.policy meta]
  simp [wfMaxInc_eq_max cfg oracle, Nat.add_assoc]

theorem fileCheckOf_points_le_max (cfg : RepoConfig) (oracle : String → Bool)
    (cd : CheckDef) :
    (fileCheckOf cfg oracle cd).points ≤ (fileCheckOf cfg oracle cd).max_points := by
  by_cases h1 : cd.name ∈ cfg.skip
  · simp [fileCheckOf, h1]
  · by_cases h2 : resolvedFileSeverity cfg cd = .Optional
    · simp [fileCheckOf, h1, h2]
    · by_cases h3 : oracle cd.name <;> simp [fileCheckOf, h1, h2, h3]

theorem wfCheckOf_points_le_max (cfg : RepoConfig) (oracle : String → Bool) :
    (wfCheckOf cfg oracle).points ≤ (wfCheckOf cfg oracle).max_points := by
  by_cases h1 : oracle ".github/workflows" <;>
    by_cases h2 : workflowSeverityOf cfg = .Optional <;>
      simp [wfCheckOf, h1, h2]

theorem licCheckList_points_le_max (policy : PolicyPack)
    (meta : Option (Option License)) (c : Check) (h : c ∈ licCheckList policy meta) :
    c.points ≤ c.max_points := by
  match meta with
  | none => simp [licCheckList] at h
  | some (some license) =>
    by_cases h1 : license.key ∈ approved_licenses <;>
      simp [licCheckList, h1] at h <;> simp [h]
  | some none =>
    simp [licCheckList] at h
    simp [h]

theorem fileCheckOf_opt_skip_max_zero (cfg : RepoConfig) (oracle : String → Bool)
    (cd : CheckDef)
    (h : (fileCheckOf cfg oracle cd).severity = .Optional
      ∨ (fileCheckOf cfg oracle cd).status = .Skip) :
    (fileCheckOf cfg oracle cd).max_points = 0 := by
  by_cases h1 : cd.name ∈ cfg.skip
  · simp [fileCheckOf, h1]
  · by_cases h2 : resolvedFileSeverity cfg cd = .Optional
    · simp [fileCheckOf, h1, h2]
    · by_cases h3 : oracle cd.name
      · simp_all [fileCheckOf, h1, h2, h3]
      · cases h4 : resolvedFileSeverity cfg cd <;>
          simp_all [fileCheckOf, h1, h3]

theorem wfCheckOf_opt_skip_max_zero (cfg : RepoConfig) (oracle : String → Bool)
    (h : (wfCheckOf cfg oracle).severity = .Optional
      ∨ (wfCheckOf cfg oracle).status = .Skip) :
    (wfCheckOf cfg oracle).max_points = 0 := by
  by_cases h1 : oracle ".github/workflows" <;>
    cases h2 : workflowSeverityOf cfg <;>
      simp_all [wfCheckOf, h1]

theorem licCheckList_not_opt_skip (policy : PolicyPack)
    (meta : Option (Option License)) (c : Check) (h : c ∈ licCheckList policy meta) :
    c.severity ≠ .Optional ∧ c.status ≠ .Skip := by
  have hs := licenseSeverityOf_ne_optional policy
  match meta with
  | none => simp [licCheckList] at h
  | some (some license) =>
    by_cases h1 : license.key ∈ approved_licenses <;>
      simp [licCheckList, h1] at h <;> simp [h] <;> exact hs
  | some none =>
    simp [licCheckList] at h
    simp [h]
    exact hs

theorem fileCheckOf_max_zero_iff (cfg : RepoConfig) (oracle : String → Bool)
    (cd : CheckDef) (hp : cd.points ≠ 0)
    (hn : cd.name.data.take 3 ≠ ['n', 'o', '-']) :
    ((fileCheckOf cfg oracle cd).max_points = 0 ↔
      ((fileCheckOf cfg oracle cd).severity = .Optional
        ∨ (fileCheckOf cfg oracle cd).status = .Skip
        ∨ (fileCheckOf cfg oracle cd).name.data.take 3 = ['n', 'o', '-'])) := by
  by_cases h1 : cd.name ∈ cfg.skip
  · simp [fileCheckOf, h1]
  · by_cases h2 : resolvedFileSeverity cfg cd = .Optional
    · simp [fileCheckOf, h1, h2]
    · by_cases h3 : oracle cd.name
      · simp [fileCheckOf, h1, h2, h3, hp, hn]
      · cases h4 : resolvedFileSeverity cfg cd <;>
          simp_all [fileCheckOf, h1, h3, hp, hn]

theorem bannedCheckOf_max_zero_and_name (cfg : RepoConfig) (oracle : String → Bool)
    (bp : BannedPattern) (c : Check) (h : bannedCheckOf cfg oracle bp = some c) :
    c.max_points = 0 ∧ c.name.data.take 3 = ['n', 'o', '-'] := by
  refine ⟨(bannedCheckOf_zero cfg oracle bp c h).2, ?_⟩
  rw [bannedCheckOf_name cfg oracle bp c h]
  exact noPrefixData bp.name

theorem wfCheckOf_max_zero_iff (cfg : RepoConfig) (oracle : String → Bool) :
    ((wfCheckOf cfg oracle).max_points = 0 ↔
      ((wfCheckOf cfg oracle).severity = .Optional
        ∨ (wfCheckOf cfg oracle).status = .Skip
        ∨ (wfCheckOf cfg oracle).name.data.take 3 = ['n', 'o', '-'])) := by
  have hwf : (".github/workflows" : String).data.take 3 ≠ ['n', 'o', '-'] := by decide
  by_cases h1 : oracle ".github/workflows" <;>
    cases h2 : workflowSeverityOf cfg <;>
      simp_all [wfCheckOf, h1]

theorem licCheckList_max_zero_iff (policy : PolicyPack)
    (meta : Option (Option License)) (c : Check) (h : c ∈ licCheckList policy meta) :
    (c.max_points = 0 ↔
      (c.severity = .Optional ∨ c.status = .Skip
        ∨ c.name.data.take 3 = ['n', 'o', '-'])) := by
  have hs := licenseSeverityOf_ne_optional policy
  have hlic : ("license-type" : String).data.take 3 ≠ ['n', 'o', '-'] := by decide
  match meta with
  | none => simp [licCheckList] at h
  | some (some license) =>
    by_cases h1 : license.key ∈ approved_licenses <;>
      simp [licCheckList, h1] at h <;> simp [h] <;> simp_all
  | some none =>
    simp [licCheckList] at h
    simp [h]
    simp_all

theorem fileCheckOf_skip_zero (cfg : RepoConfig) (oracle : String → Bool)
    (cd : CheckDef) (h : (fileCheckOf cfg oracle cd).name ∈ cfg.skip) :
    (fileCheckOf cfg oracle cd).points = 0 ∧ (fileCheckOf cfg oracle cd).max_points = 0 := by
  by_cases h1 : cd.name ∈ cfg.skip
  · simp [fileCheckOf, h1]
  · rw [fileCheckOf_name cfg oracle cd] at h
    exact absurd h h1

theorem bannedCheckOf_not_skip (cfg : RepoConfig) (oracle : String → Bool)
    (bp : BannedPattern) (c : Check) (h : bannedCheckOf cfg oracle bp = some c)
    (hs : c.name ∈ cfg.skip) : False := by
  by_cases h1 : ("no-" ++ bp.name) ∈ cfg.skip
  · simp [bannedCheckOf, h1] at h
  · rw [bannedCheckOf_name cfg oracle bp c h] at hs
    exact absurd hs h1

theorem fileCheckOf_override (cfg : RepoConfig) (oracle : String → Bool)
    (cd : CheckDef) (sev : Severity) (h1 : cd.name ∉ cfg.skip)
    (hov : lookupOverride cfg.severity_overrides cd.name = some sev) :
    (fileCheckOf cfg oracle cd).severity = sev := by
  rw [fileCheckOf_severity cfg oracle cd h1]
  simp [resolvedFileSeverity, hov]

theorem bannedCheckOf_override (cfg : RepoConfig) (oracle : String → Bool)
    (bp : BannedPattern) (c : Check) (sev : Severity)
    (h : bannedCheckOf cfg oracle bp = some c)
    (hov : lookupOverride cfg.severity_overrides ("no-" ++ bp.name) = some sev) :
    c.severity = sev := by
  rw [bannedCheckOf_severity cfg oracle bp c h]
  simp [resolvedBannedSeverity, hov]

theorem wfCheckOf_override (cfg : RepoConfig) (oracle : String → Bool)
    (sev : Severity) (hc : cfg.policy = .Custom)
    (hov : lookupOverride cfg.severity_overrides ".github/workflows" = some sev) :
    (wfCheckOf cfg oracle).severity = sev := by
  rw [wfCheckOf_severity cfg oracle]
  simp [workflowSeverityOf, hc, hov]

/-! ### Facts about the concrete registries -/

theorem required_files_facts : ∀ cd ∈ REQUIRED_FILES,
    cd.points ≠ 0 ∧ cd.name.data.take 3 ≠ ['n', 'o', '-']
      ∧ cd.name ≠ "license-type" ∧ cd.name ≠ ".github/workflows" := by decide

theorem banned_patterns_facts : ∀ bp ∈ BANNED_PATTERNS,
    ("no-" ++ bp.name) ≠ "license-type"
      ∧ ("no-" ++ bp.name) ≠ ".github/workflows" := by decide

/-- Case analysis over the provenance of an emitted check. -/
theorem mem_checks_cases (cfg : RepoConfig) (oracle : String → Bool)
    (meta : Option (Option License)) (c : Check)
    (hc : c ∈ (check_compliance_with_policy cfg oracle meta).checks) :
    (∃ cd ∈ REQUIRED_FILES, fileCheckOf cfg oracle cd = c)
    ∨ (∃ bp ∈ BANNED_PATTERNS, bannedCheckOf cfg oracle bp = some c)
    ∨ c = wfCheckOf cfg oracle
    ∨ c ∈ licCheckList cfg.policy meta := by
  rw [check_compliance_with_policy_spec] at hc
  simp only [List.mem_append, List.mem_map, List.mem_filterMap,
    List.mem_singleton] at hc
  rcases hc with ((h | h) | h) | h
  · exact Or.inl h
  · exact Or.inr (Or.inl h)
  · exact Or.inr (Or.inr (Or.inl h))
  · exact Or.inr (Or.inr (Or.inr h))

/-! ### Sample inputs used by counterexamples and witnesses -/

/-- The all-default `RepoConfig` (serde defaults: Standard pack, empty
overrides, skips and extras). -/
def defaultRepoConfig : RepoConfig :=
  { policy := .Standard, severity_overrides := [], skip := [],
    require := [], ban := [] }

/-- A default configuration on the Minimal pack. -/
def minimalRepoConfig : RepoConfig :=
  { policy := .Minimal, severity_overrides := [], skip := [],
    require := [], ban := [] }

/-- Oracle answering that no path exists. -/
def absentOracle : String → Bool := fun _ => false

/-- Oracle answering that exactly the registry files and the workflow
directory exist. -/
def allFilesOracle : String → Bool := fun s =>
  ["README.adoc", "LICENSE.txt", "SECURITY.md", "CONTRIBUTING.md",
   "CODE_OF_CONDUCT.md", ".claude/CLAUDE.md", "STATE.scm", "META.scm",
   "ECOSYSTEM.scm", ".github/workflows"].contains s

/-- Oracle answering that only `go.mod` exists. -/
def goModOracle : String → Bool := fun s => s == "go.mod"

/-- A configuration requesting extra required files and banned names. -/
def requireExtraConfig : RepoConfig :=
  { policy := .Standard, severity_overrides := [], skip := [],
    require := ["EXTRA.md"], ban := ["evil.bin"] }

/-! ### Claim C1 -/

/-- Claim C1, counterexample: with `require = ["EXTRA.md"]` and
`ban = ["evil.bin"]` configured, the report contains no check for either
name — the evaluator never reads the two fields. -/
theorem c1_counterexample :
    "EXTRA.md" ∈ requireExtraConfig.require
    ∧ "evil.bin" ∈ requireExtraConfig.ban
    ∧ (∀ c ∈ (check_compliance_with_policy requireExtraConfig absentOracle none).checks,
        c.name ≠ "EXTRA.md" ∧ c.name ≠ "no-evil.bin" ∧ c.name ≠ "evil.bin") := by
  decide

/-- Claim C1 (amended): the evaluator ignores `RepoConfig.require` and
`RepoConfig.ban` entirely — the report is unchanged under any values of
these two fields, so no additional checks are emitted or scored for
them. -/
theorem c1_require_ban_ignored (cfg : RepoConfig) (r b : List String)
    (oracle : String → Bool) (meta : Option (Option License)) :
    check_compliance_with_policy { cfg with require := r, ban := b } oracle meta
      = check_compliance_with_policy cfg oracle meta := rfl

/-! ### Claim C2 -/

theorem fatal_exists_iff_kills (cfg : RepoConfig) (oracle : String → Bool)
    (meta : Option (Option License)) :
    (REQUIRED_FILES.any (fileKill cfg oracle)
        || BANNED_PATTERNS.any (bannedKill cfg oracle)
        || wfKill cfg oracle || licKill cfg.policy meta) = true ↔
      ∃ c ∈ (REQUIRED_FILES.map (fileCheckOf cfg oracle)
        ++ BANNED_PATTERNS.filterMap (bannedCheckOf cfg oracle)
        ++ [wfCheckOf cfg oracle] ++ licCheckList cfg.policy meta),
        FatalCheck c := by
  simp only [Bool.or_eq_true, List.any_eq_true, List.mem_append,
    List.mem_map, List.mem_filterMap, List.mem_singleton]
  constructor
  · rintro (((⟨cd, hcd, hk⟩ | ⟨bp, hbp, hk⟩) | hk) | hk)
    · exact ⟨fileCheckOf cfg oracle cd, Or.inl (Or.inl (Or.inl ⟨cd, hcd, rfl⟩)),
        (fileCheckOf_fatal_iff cfg oracle cd).mpr hk⟩
    · obtain ⟨c, hsome, hfatal⟩ := (bannedCheckOf_fatal_iff cfg oracle bp).mpr hk
      exact ⟨c, Or.inl (Or.inl (Or.inr ⟨bp, hbp, hsome⟩)), hfatal⟩
    · exact ⟨wfCheckOf cfg oracle, Or.inl (Or.inr rfl),
        (wfCheckOf_fatal_iff cfg oracle).mpr hk⟩
    · obtain ⟨c, hmem, hfatal⟩ := (licCheckList_fatal_iff cfg.policy meta).mpr hk
      exact ⟨c, Or.inr hmem, hfatal⟩
  · rintro ⟨c, (((⟨cd, hcd, rfl⟩ | ⟨bp, hbp, hsome⟩) | rfl) | hmem), hfatal⟩
    · exact Or.inl (Or.inl (Or.inl ⟨cd, hcd,
        (fileCheckOf_fatal_iff cfg oracle cd).mp hfatal⟩))
    · exact Or.inl (Or.inl (Or.inr ⟨bp, hbp,
        (bannedCheckOf_fatal_iff cfg oracle bp).mp ⟨c, hsome, hfatal⟩⟩))
    · exact Or.inl (Or.inr ((wfCheckOf_fatal_iff cfg oracle).mp hfatal))
    · exact Or.inr ((licCheckList_fatal_iff cfg.policy meta).mp ⟨c, hmem, hfatal⟩)

/-- Claim C2, counterexample: all files present, workflows present, but
an unapproved license — `required_passed` is `false` yet no check in the
report carries severity `Required` together with status `Fail` (the
license check fails the repository through a Required-severity `Warn`). -/
theorem c2_counterexample :
    (check_compliance_with_policy defaultRepoConfig allFilesOracle
      (some (some { key := "wtfpl", name := "WTFPL" }))).required_passed = false
    ∧ ∀ c ∈ (check_compliance_with_policy defaultRepoConfig allFilesOracle
        (some (some { key := "wtfpl", name := "WTFPL" }))).checks,
        ¬(c.severity = .Required ∧ c.status = .Fail) := by
  decide

/-- Claim C2 (amended): `required_passed` is `false` iff the report
contains a check with severity `Required` whose status is `Fail`, or the
`license-type` check with severity `Required` and status `Warn` (the
unapproved-license case, which clears the flag without a `Fail`
status). -/
theorem c2_required_passed_iff (cfg : RepoConfig) (oracle : String → Bool)
    (meta : Option (Option License)) :
    (check_compliance_with_policy cfg oracle meta).required_passed = false ↔
      ∃ c ∈ (check_compliance_with_policy cfg oracle meta).checks,
        c.severity = .Required ∧
          (c.status = .Fail ∨ (c.name = "license-type" ∧ c.status = .Warn)) := by
  rw [check_compliance_with_policy_spec]
  dsimp only
  have hiff := fatal_exists_iff_kills cfg oracle meta
  simp only [FatalCheck] at hiff
  rw [← hiff]
  exact (Bool.not_eq_false' ..).to_iff

/-! ### Claim C3 -/

/-- Claim C3, counterexample: under the Minimal pack with metadata
fetched and no license, the license check does resolve to Recommended
severity and `required_passed` stays true, but its status is `Fail`,
not `Warn` — and no `license-type` check with status `Warn` exists. -/
theorem c3_counterexample :
    (check_compliance_with_policy minimalRepoConfig allFilesOracle
      (some none)).required_passed = true
    ∧ (∃ c ∈ (check_compliance_with_policy minimalRepoConfig allFilesOracle
        (some none)).checks,
        c.name = "license-type" ∧ c.severity = .Recommended ∧ c.status = .Fail)
    ∧ ∀ c ∈ (check_compliance_with_policy minimalRepoConfig allFilesOracle
        (some none)).checks, c.name = "license-type" → c.status ≠ .Warn := by
  decide

/-- Claim C3 (amended): under the Minimal pack, when metadata is fetched
and no license is present, the license check is emitted with Recommended
severity and status `Fail` (not `Warn`), zero points out of five, and it
leaves `required_passed` exactly as the other checks determined it (the
failure is not fatal). -/
theorem c3_minimal_license_fail (cfg : RepoConfig) (oracle : String → Bool)
    (h : cfg.policy = .Minimal) :
    (check_compliance_with_policy cfg oracle (some none)).checks
      = (check_compliance_with_policy cfg oracle none).checks
        ++ [{ name := "license-type", category := .Governance,
              severity := .Recommended, status := .Fail, points := 0,
              max_points := 5, message := "No license detected" }]
    ∧ (check_compliance_with_policy cfg oracle (some none)).required_passed
      = (check_compliance_with_policy cfg oracle none).required_passed := by
  rw [check_compliance_with_policy_spec, check_compliance_with_policy_spec]
  dsimp only
  refine ⟨?_, ?_⟩ <;> simp [licCheckList, licKill, h, licenseSeverityOf]

/-- Witness for C3 at a concrete input. -/
theorem c3_minimal_license_fail_witness :
    minimalRepoConfig.policy = .Minimal
    ∧ ((check_compliance_with_policy minimalRepoConfig allFilesOracle (some none)).checks
      = (check_compliance_with_policy minimalRepoConfig allFilesOracle none).checks
        ++ [{ name := "license-type", category := .Governance,
              severity := .Recommended, status := .Fail, points := 0,
              max_points := 5, message := "No license detected" }]
    ∧ (check_compliance_with_policy minimalRepoConfig allFilesOracle
        (some none)).required_passed
      = (check_compliance_with_policy minimalRepoConfig allFilesOracle
        none).required_passed) :=
  ⟨rfl, c3_minimal_license_fail minimalRepoConfig allFilesOracle rfl⟩

/-! ### Claim C4 -/

/-- Claim C4, counterexample: with `go.mod` present under the Standard
pack, the banned-pattern check `no-go.mod` is emitted with
`max_points = 0` although its severity is Recommended (not Optional) and
its status is `Warn` (not skipped). -/
theorem c4_counterexample :
    ∃ c ∈ (check_compliance_with_policy defaultRepoConfig goModOracle none).checks,
      c.max_points = 0 ∧ c.severity ≠ .Optional ∧ c.status ≠ .Skip := by
  decide

/-- Claim C4 (amended): every emitted check satisfies
`points ≤ max_points`, and `max_points = 0` iff the check's severity is
Optional, or its status is `Skip`, or it is a banned-pattern check
(name starting with "no-") — banned patterns score zero at every
severity. -/
theorem c4_points_bounds (cfg : RepoConfig) (oracle : String → Bool)
    (meta : Option (Option License)) (c : Check)
    (hc : c ∈ (check_compliance_with_policy cfg oracle meta).checks) :
    c.points ≤ c.max_points
    ∧ (c.max_points = 0 ↔
        (c.severity = .Optional ∨ c.status = .Skip
          ∨ c.name.data.take 3 = ['n', 'o', '-'])) := by
  rcases mem_checks_cases cfg oracle meta c hc with
    ⟨cd, hcd, rfl⟩ | ⟨bp, hbp, hsome⟩ | rfl | hmem
  · obtain ⟨hp, hn, -, -⟩ := required_files_facts cd hcd
    exact ⟨fileCheckOf_points_le_max cfg oracle cd,
      fileCheckOf_max_zero_iff cfg oracle cd hp hn⟩
  · obtain ⟨hz, hname⟩ := bannedCheckOf_max_zero_and_name cfg oracle bp c hsome
    have hpz := (bannedCheckOf_zero cfg oracle bp c hsome).1
    refine ⟨?_, ⟨fun _ => Or.inr (Or.inr hname), fun _ => hz⟩⟩
    rw [hpz]
    exact Nat.zero_le _
  · exact ⟨wfCheckOf_points_le_max cfg oracle, wfCheckOf_max_zero_iff cfg oracle⟩
  · exact ⟨licCheckList_points_le_max cfg.policy meta c hmem,
      licCheckList_max_zero_iff cfg.policy meta c hmem⟩

/-- The check the evaluator emits for a missing README under default
configuration. -/
def readmeMissingCheck : Check :=
  { name := "README.adoc", category := .Documentation, severity := .Required,
    status := .Fail, points := 0, max_points := 5,
    message := "AsciiDoc README missing" }

/-- Witness for C4 at a concrete input. -/
theorem c4_points_bounds_witness :
    readmeMissingCheck ∈
      (check_compliance_with_policy defaultRepoConfig absentOracle none).checks
    ∧ (readmeMissingCheck.points ≤ readmeMissingCheck.max_points
      ∧ (readmeMissingCheck.max_points = 0 ↔
          (readmeMissingCheck.severity = .Optional
            ∨ readmeMissingCheck.status = .Skip
            ∨ readmeMissingCheck.name.data.take 3 = ['n', 'o', '-']))) :=
  ⟨by decide, c4_points_bounds defaultRepoConfig absentOracle none
    readmeMissingCheck (by decide)⟩

/-! ### Claim C5 -/

/-- A configuration that lists the synthesized workflow check in
`skip`. -/
def skipWorkflowConfig : RepoConfig :=
  { policy := .Standard, severity_overrides := [],
    skip := [".github/workflows"], require := [], ban := [] }

/-- Claim C5, counterexample: the synthesized workflow check ignores
`skip` — with `.github/workflows` listed in `skip` it is still emitted
with `max_points = 5`. -/
theorem c5_counterexample :
    ".github/workflows" ∈ skipWorkflowConfig.skip
    ∧ ∃ c ∈ (check_compliance_with_policy skipWorkflowConfig absentOracle
        none).checks, c.name = ".github/workflows" ∧ c.max_points ≠ 0 := by
  decide

/-- Claim C5 (amended): a check named in `skip` is excluded from scoring
— zero points, zero max points — for registry required-file checks, and
a banned pattern with `"no-" ++ name` in `skip` is never emitted; the
synthesized workflow and license checks, however, do not consult `skip`
and are exempt. -/
theorem c5_skip_zero (cfg : RepoConfig) (oracle : String → Bool)
    (meta : Option (Option License)) (c : Check)
    (hc : c ∈ (check_compliance_with_policy cfg oracle meta).checks)
    (hskip : c.name ∈ cfg.skip)
    (hwf : c.name ≠ ".github/workflows") (hlic : c.name ≠ "license-type") :
    c.points = 0 ∧ c.max_points = 0 := by
  rcases mem_checks_cases cfg oracle meta c hc with
    ⟨cd, hcd, rfl⟩ | ⟨bp, hbp, hsome⟩ | rfl | hmem
  · exact fileCheckOf_skip_zero cfg oracle cd hskip
  · exact (bannedCheckOf_not_skip cfg oracle bp c hsome hskip).elim
  · exact absurd (wfCheckOf_name cfg oracle) hwf
  · exact absurd (licCheckList_name cfg.policy meta c hmem) hlic

/-- A configuration that skips the README check. -/
def skipReadmeConfig : RepoConfig :=
  { policy := .Standard, severity_overrides := [], skip := ["README.adoc"],
    require := [], ban := [] }

/-- The check the evaluator emits for a skipped README. -/
def readmeSkippedCheck : Check :=
  { name := "README.adoc", category := .Documentation, severity := .Optional,
    status := .Skip, points := 0, max_points := 0,
    message := "AsciiDoc README skipped by config" }

/-- Witness for C5 at a concrete input. -/
theorem c5_skip_zero_witness :
    readmeSkippedCheck ∈
      (check_compliance_with_policy skipReadmeConfig absentOracle none).checks
    ∧ readmeSkippedCheck.name ∈ skipReadmeConfig.skip
    ∧ readmeSkippedCheck.name ≠ ".github/workflows"
    ∧ readmeSkippedCheck.name ≠ "license-type"
    ∧ (readmeSkippedCheck.points = 0 ∧ readmeSkippedCheck.max_points = 0) :=
  ⟨by decide, by decide, by decide, by decide,
   c5_skip_zero skipReadmeConfig absentOracle none readmeSkippedCheck
     (by decide) (by decide) (by decide) (by decide)⟩

/-! ### Claim C6 -/

/-- A Standard-pack configuration overriding the workflow check's
severity. -/
def overrideWorkflowConfig : RepoConfig :=
  { policy := .Standard,
    severity_overrides := [(".github/workflows", .Required)], skip := [],
    require := [], ban := [] }

/-- Claim C6, counterexample: under the Standard pack the override for
`.github/workflows` is ignored — the emitted workflow check keeps its
policy-table severity Recommended instead of the overridden Required. -/
theorem c6_counterexample :
    lookupOverride overrideWorkflowConfig.severity_overrides ".github/workflows"
      = some .Required
    ∧ ∃ c ∈ (check_compliance_with_policy overrideWorkflowConfig absentOracle
        none).checks,
        c.name = ".github/workflows" ∧ c.name ∉ overrideWorkflowConfig.skip
          ∧ c.severity ≠ .Required := by
  decide

/-- Claim C6 (amended): for non-skipped registry required-file checks
and banned-pattern checks an override entry always determines the
effective severity, on every pack including Custom; the synthesized
workflow check honors its override only under the Custom pack, and the
license check has no override at all. -/
theorem c6_override_wins (cfg : RepoConfig) (oracle : String → Bool)
    (meta : Option (Option License)) (c : Check) (sev : Severity)
    (hc : c ∈ (check_compliance_with_policy cfg oracle meta).checks)
    (hskip : c.name ∉ cfg.skip)
    (hov : lookupOverride cfg.severity_overrides c.name = some sev)
    (hwf : c.name = ".github/workflows" → cfg.policy = .Custom)
    (hlic : c.name ≠ "license-type") :
    c.severity = sev := by
  rcases mem_checks_cases cfg oracle meta c hc with
    ⟨cd, hcd, rfl⟩ | ⟨bp, hbp, hsome⟩ | rfl | hmem
  · rw [fileCheckOf_name cfg oracle cd] at hskip hov
    exact fileCheckOf_override cfg oracle cd sev hskip hov
  · rw [bannedCheckOf_name cfg oracle bp c hsome] at hov
    exact bannedCheckOf_override cfg oracle bp c sev hsome hov
  · have hname := wfCheckOf_name cfg oracle
    rw [hname] at hov
    exact wfCheckOf_override cfg oracle sev (hwf hname) hov
  · exact absurd (licCheckList_name cfg.policy meta c hmem) hlic

/-- A Custom-pack configuration overriding the workflow check's
severity. -/
def customOverrideConfig : RepoConfig :=
  { policy := .Custom,
    severity_overrides := [(".github/workflows", .Required)], skip := [],
    require := [], ban := [] }

/-- The workflow check emitted when workflows are absent and the
severity was overridden to Required under Custom. -/
def wfFailCheck : Check :=
  { name := ".github/workflows", category := .Structure,
    severity := .Required, status := .Fail, points := 0, max_points := 5,
    message := "No GitHub Actions workflows" }

/-- Witness for C6 at a concrete input. -/
theorem c6_override_wins_witness :
    wfFailCheck ∈
      (check_compliance_with_policy customOverrideConfig absentOracle none).checks
    ∧ wfFailCheck.name ∉ customOverrideConfig.skip
    ∧ lookupOverride customOverrideConfig.severity_overrides wfFailCheck.name
      = some .Required
    ∧ wfFailCheck.name ≠ "license-type"
    ∧ wfFailCheck.severity = .Required :=
  ⟨by decide, by decide, by decide, by decide,
   c6_override_wins customOverrideConfig absentOracle none wfFailCheck .Required
     (by decide) (by decide) (by decide) (fun _ => rfl) (by decide)⟩

/-! ### Claim C7 -/

theorem mem_checks_points_le_max (cfg : RepoConfig) (oracle : String → Bool)
    (meta : Option (Option License)) (c : Check)
    (hc : c ∈ (check_compliance_with_policy cfg oracle meta).checks) :
    c.points ≤ c.max_points := by
  rcases mem_checks_cases cfg oracle meta c hc with
    ⟨cd, hcd, rfl⟩ | ⟨bp, hbp, hsome⟩ | rfl | hmem
  · exact fileCheckOf_points_le_max cfg oracle cd
  · rw [(bannedCheckOf_zero cfg oracle bp c hsome).1]
    exact Nat.zero_le _
  · exact wfCheckOf_points_le_max cfg oracle
  · exact licCheckList_points_le_max cfg.policy meta c hmem

theorem mem_checks_opt_skip_zero (cfg : RepoConfig) (oracle : String → Bool)
    (meta : Option (Option License)) (c : Check)
    (hc : c ∈ (check_compliance_with_policy cfg oracle meta).checks)
    (h : c.severity = .Optional ∨ c.status = .Skip) : c.max_points = 0 := by
  rcases mem_checks_cases cfg oracle meta c hc with
    ⟨cd, hcd, rfl⟩ | ⟨bp, hbp, hsome⟩ | rfl | hmem
  · exact fileCheckOf_opt_skip_max_zero cfg oracle cd h
  · exact (bannedCheckOf_zero cfg oracle bp c hsome).2
  · exact wfCheckOf_opt_skip_max_zero cfg oracle h
  · obtain ⟨h1, h2⟩ := licCheckList_not_opt_skip cfg.policy meta c hmem
    rcases h with h | h
    · exact absurd h h1
    · exact absurd h h2

theorem sum_filter_max (l : List Check)
    (h : ∀ c ∈ l, (c.severity = .Optional ∨ c.status = .Skip) → c.max_points = 0) :
    ((l.filter (fun c => !(c.severity == Severity.Optional
        || c.status == CheckStatus.Skip))).map (fun c => c.max_points)).sum
      = (l.map (fun c => c.max_points)).sum := by
  induction l with
  | nil => simp
  | cons c rest ih =>
    have hrest := ih (fun x hx => h x (List.mem_cons_of_mem _ hx))
    rw [List.filter_cons]
    by_cases hp : c.severity = Severity.Optional ∨ c.status = CheckStatus.Skip
    · have hz : c.max_points = 0 := h c (List.mem_cons_self ..) hp
      rw [if_neg (by rcases hp with hp | hp <;> simp [hp])]
      rw [List.map_cons, List.sum_cons, hz, Nat.zero_add, hrest]
    · obtain ⟨h1, h2⟩ := not_or.mp hp
      rw [if_pos (by simp [h1, h2])]
      rw [List.map_cons, List.map_cons, List.sum_cons, List.sum_cons, hrest]

/-- Claim C7: the aggregate score never exceeds the maximum score, and
the maximum score is exactly the sum of `max_points` over the checks
that neither resolved to Optional severity nor were skipped (all other
checks contribute zero). -/
theorem c7_score_bounds (cfg : RepoConfig) (oracle : String → Bool)
    (meta : Option (Option License)) :
    (check_compliance_with_policy cfg oracle meta).score
      ≤ (check_compliance_with_policy cfg oracle meta).max_score
    ∧ (check_compliance_with_policy cfg oracle meta).max_score
      = (((check_compliance_with_policy cfg oracle meta).checks.filter
          (fun c => !(c.severity == Severity.Optional
            || c.status == CheckStatus.Skip))).map
              (fun c => c.max_points)).sum := by
  constructor
  · rw [score_eq_sum_points, max_score_eq_sum_max_points]
    exact List.sum_le_sum (fun c hc => mem_checks_points_le_max cfg oracle meta c hc)
  · rw [max_score_eq_sum_max_points]
    exact (sum_filter_max _
      (fun c hc h => mem_checks_opt_skip_zero cfg oracle meta c hc h)).symm

/-! ### Claim C8 -/

/-- Claim C8: when the repository-metadata fetch fails (`meta = none`)
the license check is omitted entirely — the report's checks, score,
maximum score and `required_passed` are exactly those accumulated by the
required-files, banned-patterns and workflow stages, and no check named
`license-type` appears — while a complete report is still produced. -/
theorem c8_fetch_failure_omits_license (cfg : RepoConfig)
    (oracle : String → Bool) :
    (check_compliance_with_policy cfg oracle none).score
      = (preLicenseState cfg oracle).total_score
    ∧ (check_compliance_with_policy cfg oracle none).max_score
      = (preLicenseState cfg oracle).max_score
    ∧ (check_compliance_with_policy cfg oracle none).required_passed
      = (preLicenseState cfg oracle).required_passed
    ∧ (check_compliance_with_policy cfg oracle none).checks
      = (preLicenseState cfg oracle).checks
    ∧ ∀ c ∈ (check_compliance_with_policy cfg oracle none).checks,
        c.name ≠ "license-type" := by
  refine ⟨rfl, rfl, rfl, rfl, fun c hc => ?_⟩
  rcases mem_checks_cases cfg oracle none c hc with
    ⟨cd, hcd, rfl⟩ | ⟨bp, hbp, hsome⟩ | rfl | hmem
  · rw [fileCheckOf_name]
    exact (required_files_facts cd hcd).2.2.1
  · rw [bannedCheckOf_name cfg oracle bp c hsome]
    exact (banned_patterns_facts bp hbp).1
  · rw [wfCheckOf_name]
    decide
  · simp [licCheckList] at hmem

/-! ### Claim C9 -/

/-- A Custom-pack configuration with an empty override map and the given
skip and extra lists. -/
def customNoOverrides (sk rq bn : List String) : RepoConfig :=
  { policy := .Custom, severity_overrides := [], skip := sk,
    require := rq, ban := bn }

/-- The same configuration on the Standard pack. -/
def standardNoOverrides (sk rq bn : List String) : RepoConfig :=
  { policy := .Standard, severity_overrides := [], skip := sk,
    require := rq, ban := bn }

/-- Claim C9: with an empty override map, an evaluation under the Custom
pack produces exactly the same checks (hence statuses and severities),
score, maximum score and `required_passed` as one under Standard — only
the echoed pack name differs. -/
theorem c9_custom_no_overrides_standard (sk rq bn : List String)
    (oracle : String → Bool) (meta : Option (Option License)) :
    (check_compliance_with_policy (customNoOverrides sk rq bn) oracle meta).checks
      = (check_compliance_with_policy (standardNoOverrides sk rq bn) oracle meta).checks
    ∧ (check_compliance_with_policy (customNoOverrides sk rq bn) oracle meta).score
      = (check_compliance_with_policy (standardNoOverrides sk rq bn) oracle meta).score
    ∧ (check_compliance_with_policy (customNoOverrides sk rq bn) oracle meta).max_score
      = (check_compliance_with_policy (standardNoOverrides sk rq bn) oracle meta).max_score
    ∧ (check_compliance_with_policy (customNoOverrides sk rq bn) oracle meta).required_passed
      = (check_compliance_with_policy (standardNoOverrides sk rq bn) oracle meta).required_passed :=
  ⟨rfl, rfl, rfl, rfl⟩

/-! ### Claim C10: the `u8` accumulator mirror

In the source, `total_score` and `max_score` are `u8` accumulators.  The
mirror below repeats exactly the accumulator updates of the evaluator
(the banned-patterns loop never touches them) with every addition taken
modulo `2^8`, as release-mode `u8` arithmetic wraps. -/

/-- The `(total_score, max_score)` updates of one required-files
iteration, with `u8` (mod-256) additions. -/
def requiredFileScoreStepU8 (cfg : RepoConfig) (oracle : String → Bool)
    (s : Nat × Nat) (cd : CheckDef) : Nat × Nat :=
  if cfg.skip.contains cd.name then s
  else
    let severity := resolvedFileSeverity cfg cd
    if severity = .Optional then s
    else
      let max_score := (s.2 + cd.points) % 256
      if oracle cd.name then ((s.1 + cd.points) % 256, max_score)
      else (s.1, max_score)

/-- The accumulator updates of the workflow stage, with `u8`
additions. -/
def workflowScoreU8 (cfg : RepoConfig) (oracle : String → Bool)
    (s : Nat × Nat) : Nat × Nat :=
  let ws := workflowSeverityOf cfg
  let s := if ws ≠ Severity.Optional then (s.1, (s.2 + 5) % 256) else s
  if oracle ".github/workflows" then
    if ws ≠ Severity.Optional then ((s.1 + 5) % 256, s.2) else s
  else s

/-- The accumulator updates of the license stage, with `u8`
additions. -/
def licenseScoreU8 (policy : PolicyPack) (meta : Option (Option License))
    (s : Nat × Nat) : Nat × Nat :=
  match meta with
  | none => s
  | some licenseOpt =>
    let s := (s.1, (s.2 + 5) % 256)
    match licenseOpt with
    | some license =>
      if approved_licenses.contains license.key then ((s.1 + 5) % 256, s.2)
      else ((s.1 + 2) % 256, s.2)
    | none => s

/-- The two `u8` accumulators of the whole evaluation. -/
def scoresU8 (cfg : RepoConfig) (oracle : String → Bool)
    (meta : Option (Option License)) : Nat × Nat :=
  licenseScoreU8 cfg.policy meta
    (workflowScoreU8 cfg oracle
      (REQUIRED_FILES.foldl (requiredFileScoreStepU8 cfg oracle) (0, 0)))

theorem fileScoreInc_le_fileMaxInc (cfg : RepoConfig) (oracle : String → Bool)
    (cd : CheckDef) : fileScoreInc cfg oracle cd ≤ fileMaxInc cfg cd := by
  by_cases h1 : cd.name ∈ cfg.skip
  · simp [fileScoreInc, fileMaxInc, h1]
  · by_cases h2 : resolvedFileSeverity cfg cd = .Optional
    · simp [fileScoreInc, fileMaxInc, h1, h2]
    · by_cases h3 : oracle cd.name <;> simp [fileScoreInc, fileMaxInc, h1, h2, h3]

theorem fileMaxInc_le_points (cfg : RepoConfig) (cd : CheckDef) :
    fileMaxInc cfg cd ≤ cd.points := by
  by_cases h1 : cd.name ∈ cfg.skip
  · simp [fileMaxInc, h1]
  · by_cases h2 : resolvedFileSeverity cfg cd = .Optional <;>
      simp [fileMaxInc, h1, h2]

theorem wfScoreInc_le_wfMaxInc (cfg : RepoConfig) (oracle : String → Bool) :
    wfScoreInc cfg oracle ≤ wfMaxInc cfg := by
  by_cases h1 : oracle ".github/workflows" <;>
    by_cases h2 : workflowSeverityOf cfg = .Optional <;>
      simp [wfScoreInc, wfMaxInc, h1, h2]

theorem wfMaxInc_le_five (cfg : RepoConfig) : wfMaxInc cfg ≤ 5 := by
  by_cases h2 : workflowSeverityOf cfg = .Optional <;> simp [wfMaxInc, h2]

theorem licScoreInc_le_licMaxInc (meta : Option (Option License)) :
    licScoreInc meta ≤ licMaxInc meta := by
  match meta with
  | none => simp [licScoreInc, licMaxInc]
  | some (some license) =>
    by_cases h1 : license.key ∈ approved_licenses <;>
      simp [licScoreInc, licMaxInc, h1]
  | some none => simp [licScoreInc, licMaxInc]

theorem licMaxInc_le_five (meta : Option (Option License)) :
    licMaxInc meta ≤ 5 := by
  match meta with
  | none => simp [licMaxInc]
  | some licenseOpt => simp [licMaxInc]

/-- As long as the exact running maximum cannot reach 256, the `u8`
accumulator fold coincides with the exact per-check sums. -/
theorem foldU8_spec (cfg : RepoConfig) (oracle : String → Bool)
    (defs : List CheckDef) :
    ∀ t m : Nat, t ≤ m →
      m + (defs.map (fun cd => cd.points)).sum ≤ 255 →
      defs.foldl (requiredFileScoreStepU8 cfg oracle) (t, m)
        = (t + (defs.map (fileScoreInc cfg oracle)).sum,
           m + (defs.map (fileMaxInc cfg)).sum) := by
  induction defs with
  | nil => intro t m ht hb; simp
  | cons cd rest ih =>
    intro t m ht hb
    rw [List.map_cons, List.sum_cons] at hb
    have hmp : m + cd.points ≤ 255 :=
      le_trans (Nat.add_le_add_left (Nat.le_add_right _ _) m)
        (by rwa [← Nat.add_assoc] at hb)
    have hrest : (m + cd.points) + (rest.map (fun cd => cd.points)).sum ≤ 255 := by
      rwa [← Nat.add_assoc] at hb
    rw [List.foldl_cons]
    by_cases h1 : cd.name ∈ cfg.skip
    · have hstep : requiredFileScoreStepU8 cfg oracle (t, m) cd = (t, m) := by
        simp [requiredFileScoreStepU8, h1]
      rw [hstep, ih t m ht (by omega)]
      simp [fileScoreInc, fileMaxInc, h1]
    · by_cases h2 : resolvedFileSeverity cfg cd = .Optional
      · have hstep : requiredFileScoreStepU8 cfg oracle (t, m) cd = (t, m) := by
          simp [requiredFileScoreStepU8, h1, h2]
        rw [hstep, ih t m ht (by omega)]
        simp [fileScoreInc, fileMaxInc, h1, h2]
      · have hmod : (m + cd.points) % 256 = m + cd.points :=
          Nat.mod_eq_of_lt (Nat.lt_succ_of_le hmp)
        by_cases h3 : oracle cd.name
        · have htmod : (t + cd.points) % 256 = t + cd.points :=
            Nat.mod_eq_of_lt (Nat.lt_succ_of_le
              (le_trans (Nat.add_le_add_right ht _) hmp))
          have hstep : requiredFileScoreStepU8 cfg oracle (t, m) cd
              = (t + cd.points, m + cd.points) := by
            simp [requiredFileScoreStepU8, h1, h2, h3, hmod, htmod]
          rw [hstep, ih (t + cd.points) (m + cd.points)
            (Nat.add_le_add_right ht _) hrest]
          simp [fileScoreInc, fileMaxInc, h1, h2, h3, Nat.add_assoc]
        · have hstep : requiredFileScoreStepU8 cfg oracle (t, m) cd
              = (t, m + cd.points) := by
            simp [requiredFileScoreStepU8, h1, h2, h3, hmod]
          rw [hstep, ih t (m + cd.points)
            (le_trans ht (Nat.le_add_right _ _)) hrest]
          simp [fileScoreInc, fileMaxInc, h1, h2, h3, Nat.add_assoc]

theorem workflowScoreU8_spec (cfg : RepoConfig) (oracle : String → Bool)
    (t m : Nat) (ht : t ≤ m) (hm : m ≤ 250) :
    workflowScoreU8 cfg oracle (t, m)
      = (t + wfScoreInc cfg oracle, m + wfMaxInc cfg) := by
  have hm5 : (m + 5) % 256 = m + 5 :=
    Nat.mod_eq_of_lt (by omega)
  have ht5 : (t + 5) % 256 = t + 5 :=
    Nat.mod_eq_of_lt (by omega)
  by_cases h1 : oracle ".github/workflows" <;>
    by_cases h2 : workflowSeverityOf cfg = .Optional <;>
      simp [workflowScoreU8, wfScoreInc, wfMaxInc, h1, h2, hm5, ht5]

theorem licenseScoreU8_spec (policy : PolicyPack) (meta : Option (Option License))
    (t m : Nat) (ht : t ≤ m) (hm : m ≤ 250) :
    licenseScoreU8 policy meta (t, m)
      = (t + licScoreInc meta, m + licMaxInc meta) := by
  have hm5 : (m + 5) % 256 = m + 5 := Nat.mod_eq_of_lt (by omega)
  have ht5 : (t + 5) % 256 = t + 5 := Nat.mod_eq_of_lt (by omega)
  have ht2 : (t + 2) % 256 = t + 2 := Nat.mod_eq_of_lt (by omega)
  match meta with
  | none => simp [licenseScoreU8, licScoreInc, licMaxInc]
  | some (some license) =>
    by_cases h1 : license.key ∈ approved_licenses <;>
      simp [licenseScoreU8, licScoreInc, licMaxInc, h1, hm5, ht5, ht2]
  | some none => simp [licenseScoreU8, licScoreInc, licMaxInc, hm5]

theorem sum_fileMaxInc_le (cfg : RepoConfig) :
    (REQUIRED_FILES.map (fileMaxInc cfg)).sum ≤ 32 := by
  have h := List.sum_le_sum (l := REQUIRED_FILES)
    (f := fileMaxInc cfg) (g := fun cd => cd.points)
    (fun cd _ => fileMaxInc_le_points cfg cd)
  have h32 : (REQUIRED_FILES.map (fun cd => cd.points)).sum = 32 := by decide
  omega

theorem sum_fileScoreInc_le (cfg : RepoConfig) (oracle : String → Bool) :
    (REQUIRED_FILES.map (fileScoreInc cfg oracle)).sum
      ≤ (REQUIRED_FILES.map (fileMaxInc cfg)).sum :=
  List.sum_le_sum (fun cd _ => fileScoreInc_le_fileMaxInc cfg oracle cd)

/-- Claim C10: the `u8` accumulators computed with wrap-around (mod-256)
arithmetic coincide with the exact score and maximum score of the
report, the maximum score never exceeds 42, and the score never exceeds
the maximum score — so the `u8` additions in the evaluator never
overflow. -/
theorem c10_no_overflow (cfg : RepoConfig) (oracle : String → Bool)
    (meta : Option (Option License)) :
    scoresU8 cfg oracle meta
      = ((check_compliance_with_policy cfg oracle meta).score,
         (check_compliance_with_policy cfg oracle meta).max_score)
    ∧ (check_compliance_with_policy cfg oracle meta).max_score ≤ 42
    ∧ (check_compliance_with_policy cfg oracle meta).score
      ≤ (check_compliance_with_policy cfg oracle meta).max_score := by
  have hfm := sum_fileMaxInc_le cfg
  have hfs := sum_fileScoreInc_le cfg oracle
  have hwm := wfMaxInc_le_five cfg
  have hws := wfScoreInc_le_wfMaxInc cfg oracle
  have hlm := licMaxInc_le_five meta
  have hls := licScoreInc_le_licMaxInc meta
  have hfold := foldU8_spec cfg oracle REQUIRED_FILES 0 0 (le_refl 0)
    (by have h32 : (REQUIRED_FILES.map (fun cd => cd.points)).sum = 32 := by decide
        omega)
  have hwf := workflowScoreU8_spec cfg oracle
    (0 + (REQUIRED_FILES.map (fileScoreInc cfg oracle)).sum)
    (0 + (REQUIRED_FILES.map (fileMaxInc cfg)).sum)
    (by omega) (by omega)
  have hlic := licenseScoreU8_spec cfg.policy meta
    (0 + (REQUIRED_FILES.map (fileScoreInc cfg oracle)).sum + wfScoreInc cfg oracle)
    (0 + (REQUIRED_FILES.map (fileMaxInc cfg)).sum + wfMaxInc cfg)
    (by omega) (by omega)
  rw [check_compliance_with_policy_spec]
  dsimp only
  refine ⟨?_, by omega, by omega⟩
  rw [scoresU8, hfold, hwf, hlic]
  simp [Nat.zero_add]

end Rhodibot
